import Mathlib

/-!
Verification of the iot-swarm repository: a shallow embedding of the
device run loop, the looping data sources, the CR1000X payload adapter,
the MQTT publisher's send path and the live-upload state tracker, with
theorems settling the specification claims about them.

Python scalar values flowing through the system (database row cells,
payload cells) are modelled by the inductive `PyVal`; machine floats are
modelled as rationals, timestamps as their ISO strings.
-/

/-- Model of a Python scalar value as it appears in data-row cells and
payload cells: None, bool, int, float (as a rational), str, and datetime
(carrying its ISO text). -/
inductive PyVal where
  | pynone : PyVal
  | pybool : Bool → PyVal
  | pyint : Int → PyVal
  | pyfloat : ℚ → PyVal
  | pystr : String → PyVal
  | pydatetime : String → PyVal
deriving DecidableEq, Repr

/-- A database or payload row: a Python dict from column name to value,
modelled as an insertion-ordered association list. -/
abbrev Row := List (String × PyVal)

/-- Embedding of the `XMLDataTypes` enum of `devices.py`: XML datatypes with
rankings used for selecting the maximum type needed for a range of values. -/
inductive XMLDataTypes where
  | null | string | boolean | dateTime | short | int | long | integer | float | double
deriving DecidableEq, Repr

/-- The `rank` entry of each `XMLDataTypes` member in `devices.py`. -/
def XMLDataTypes.rank : XMLDataTypes → Nat
  | .null => 0
  | .string => 1
  | .boolean => 2
  | .dateTime => 3
  | .short => 4
  | .int => 5
  | .long => 6
  | .integer => 7
  | .float => 8
  | .double => 9

/-- The `schema` entry of each `XMLDataTypes` member in `devices.py`. -/
def XMLDataTypes.schema : XMLDataTypes → String
  | .null => "xsi:nil"
  | .string => "xsd:string"
  | .boolean => "xsd:boolean"
  | .dateTime => "xsd:dateTime"
  | .short => "xsd:short"
  | .int => "xsd:int"
  | .long => "xsd:long"
  | .integer => "xsd:integer"
  | .float => "xsd:float"
  | .double => "xsd:double"

/-- Modelled from the spec: the library timestamp parser used by
`CR1000XField._get_xsd_type` (`datetime.fromisoformat`); the repository calls
the standard library, which is not part of the source tree. The model accepts
exactly the strings beginning with a YYYY-MM-DD date. -/
def fromisoformat (s : String) : Bool :=
  match s.data with
  | c0 :: c1 :: c2 :: c3 :: c4 :: c5 :: c6 :: c7 :: c8 :: c9 :: _ =>
    c0.isDigit && c1.isDigit && c2.isDigit && c3.isDigit && (c4 == '-') &&
    c5.isDigit && c6.isDigit && (c7 == '-') && c8.isDigit && c9.isDigit
  | _ => false

/-- The smallest normal positive IEEE-754 single value, the decimal literal
1.1754943508222875e-38 appearing in `CR1000XField._get_xsd_type`. -/
def floatTiny : ℚ := 1.1754943508222875e-38

/-- The largest finite IEEE-754 single value, the decimal literal
3.4028234663852886e38 appearing in `CR1000XField._get_xsd_type`. -/
def floatHuge : ℚ := 3.4028234663852886e38

/-- The Python `str.lower()` method, modelled at the character-list level (the
core library's `String.toLower` is opaque to kernel reduction). -/
def pyLower (s : String) : String := String.mk (s.data.map Char.toLower)

/-- The Python `str.endswith(suffix)` method, modelled at the character-list
level. -/
def pyEndsWith (s suffix : String) : Bool := List.isSuffixOf suffix.data s.data

namespace CR1000XField

/-- Embedding of `CR1000XField._get_xsd_type` from `devices.py` on scalar
values: converts a value to the XML data type expected. Branches in source
order: None, datetime, bool, str (ISO parse attempt), int (range ladder),
float (normal-range test). The remaining source branch (iterables) recurses
into `_get_avg_xsd_type` below and is reached by the adapter only for whole
columns, never for row cells. -/
def _get_xsd_type : PyVal → XMLDataTypes
  | .pynone => .null
  | .pydatetime _ => .dateTime
  | .pybool _ => .boolean
  | .pystr s => if fromisoformat s then .dateTime else .string
  | .pyint n =>
    if (0 < n ∧ n ≤ 32767) ∨ (n < 0 ∧ -32768 ≤ n) then .short
    else if n = 0 ∨ (n < 0 ∧ -2147483648 ≤ n) ∨ (0 < n ∧ n ≤ 2147483647) then .int
    else if (0 < n ∧ n ≤ 9223372036854775807) ∨ (n < 0 ∧ -9223372036854775808 ≤ n) then .long
    else .integer
  | .pyfloat q =>
    let a := if q < 0 then -q else q
    if 0 < a ∧ (a < floatTiny ∨ floatHuge < a) then .double else .float

/-- One update of the `highest` accumulator in `CR1000XField._get_avg_xsd_type`:
`if level.rank > highest.rank: highest = level`. -/
def pickHigher (highest level : XMLDataTypes) : XMLDataTypes :=
  if highest.rank < level.rank then level else highest

/-- The loop of `CR1000XField._get_avg_xsd_type` from `devices.py`: starting
from an accumulator, classify each item and keep the higher rank. -/
def avgFold : XMLDataTypes → List PyVal → XMLDataTypes
  | highest, [] => highest
  | highest, v :: vs => avgFold (pickHigher highest (_get_xsd_type v)) vs

/-- Embedding of `CR1000XField._get_avg_xsd_type` from `devices.py` applied to
a column of scalar values: starting from `highest = null`, the most likely XML
data type is the one of maximal rank among the per-value classifications.
This is also the value of `CR1000XField._get_xsd_type` on the column itself,
whose iterable branch delegates here. -/
def _get_avg_xsd_type (values : List PyVal) : XMLDataTypes :=
  avgFold .null values

/-- Embedding of `CR1000XField._get_process` from `devices.py`: the process
attribute derived from the trailing token of the lowercased variable name. -/
def _get_process (value : String) : String :=
  let value := pyLower value
  if pyEndsWith value "_std" then "Std"
  else if pyEndsWith value "_avg" then "Avg"
  else if pyEndsWith value "_max" then "Max"
  else if pyEndsWith value "_min" then "Min"
  else if pyEndsWith value "_mom" then "Mom"
  else if pyEndsWith value "_tot" then "Tot"
  else if pyEndsWith value "_cov" then "Cov"
  else "Smp"

theorem rank_pickHigher_left (h l : XMLDataTypes) : h.rank ≤ (pickHigher h l).rank := by
  unfold pickHigher
  split
  · omega
  · exact Nat.le_refl _

theorem rank_pickHigher_right (h l : XMLDataTypes) : l.rank ≤ (pickHigher h l).rank := by
  unfold pickHigher
  split
  · exact Nat.le_refl _
  · omega

theorem rank_avgFold_acc (vs : List PyVal) (h : XMLDataTypes) :
    h.rank ≤ (avgFold h vs).rank := by
  induction vs generalizing h with
  | nil => exact Nat.le_refl _
  | cons v vs ih =>
    exact Nat.le_trans (rank_pickHigher_left h (_get_xsd_type v)) (ih _)

theorem rank_avgFold_mem : ∀ (vs : List PyVal) (h : XMLDataTypes) (v : PyVal),
    v ∈ vs → (_get_xsd_type v).rank ≤ (avgFold h vs).rank
  | [], _, v, hv => absurd hv (List.not_mem_nil v)
  | w :: ws, h, v, hv => by
    rcases List.mem_cons.mp hv with rfl | hv
    · exact Nat.le_trans (rank_pickHigher_right h (_get_xsd_type v)) (rank_avgFold_acc ws _)
    · exact rank_avgFold_mem ws _ v hv

theorem avgFold_const_int (vs : List PyVal)
    (hvs : ∀ v ∈ vs, _get_xsd_type v = XMLDataTypes.int) :
    avgFold XMLDataTypes.int vs = XMLDataTypes.int := by
  induction vs with
  | nil => rfl
  | cons v vs ih =>
    have hv : _get_xsd_type v = XMLDataTypes.int := hvs v (List.mem_cons_self v vs)
    show avgFold (pickHigher XMLDataTypes.int (_get_xsd_type v)) vs = XMLDataTypes.int
    rw [hv]
    exact ih (fun w hw => hvs w (List.mem_cons_of_mem v hw))

theorem xsd_type_float_two_and_half :
    _get_xsd_type (.pyfloat 2.5) = XMLDataTypes.float := by
  simp only [_get_xsd_type]
  norm_num [floatTiny, floatHuge]

end CR1000XField

/-- C4. The claim asserts that column inference over `[1, "abc"]` yields
xsd:string. The code classifies 1 as short (rank 4) and "abc" as string
(rank 1) and keeps the maximum rank, so the column type is xsd:short, not
xsd:string: the claim is false at this input. -/
theorem C4_type_inference_counterexample :
    CR1000XField._get_avg_xsd_type [.pyint 1, .pystr "abc"] = XMLDataTypes.short ∧
    XMLDataTypes.short ≠ XMLDataTypes.string := by
  exact ⟨rfl, by decide⟩

/-- C4 (amended). Column field-type inference by rank over a batch returns
xsd:float for `[1, 2.5]`, xsd:short (not xsd:string) for `[1, "abc"]`, and
xsd:short for `[null, 1, null]`; and a higher rank observed anywhere in the
column wins: every value's classification has rank at most the column's. -/
theorem C4_type_inference_amended :
    CR1000XField._get_avg_xsd_type [.pyint 1, .pyfloat 2.5] = XMLDataTypes.float ∧
    CR1000XField._get_avg_xsd_type [.pyint 1, .pystr "abc"] = XMLDataTypes.short ∧
    CR1000XField._get_avg_xsd_type [.pynone, .pyint 1, .pynone] = XMLDataTypes.short ∧
    (∀ (vs : List PyVal) (v : PyVal), v ∈ vs →
      (CR1000XField._get_xsd_type v).rank ≤ (CR1000XField._get_avg_xsd_type vs).rank) := by
  refine ⟨?_, rfl, rfl, ?_⟩
  · simp only [CR1000XField._get_avg_xsd_type, CR1000XField.avgFold,
      CR1000XField.xsd_type_float_two_and_half]
    rfl
  · intro vs v hv
    exact CR1000XField.rank_avgFold_mem vs XMLDataTypes.null v hv

/-- C4 witness: the rank-domination clause of the amended theorem applied at
the concrete column `[1, "abc"]` and its member `"abc"`. -/
theorem C4_type_inference_amended_witness :
    (CR1000XField._get_xsd_type (.pystr "abc")).rank ≤
      (CR1000XField._get_avg_xsd_type [.pyint 1, .pystr "abc"]).rank :=
  C4_type_inference_amended.2.2.2 [.pyint 1, .pystr "abc"] (.pystr "abc") (by decide)

/-- C10. The per-value classifier maps the integer 0 to xsd:int, not xsd:short
(the short branch requires strictly positive or strictly negative values), so a
column whose observed values are all 0 is assigned xsd:int even though 0 lies
inside the short range. -/
theorem C10_zero_is_int :
    CR1000XField._get_xsd_type (.pyint 0) = XMLDataTypes.int ∧
    XMLDataTypes.int ≠ XMLDataTypes.short ∧
    ((-32768 : Int) ≤ 0 ∧ (0 : Int) ≤ 32767) ∧
    (∀ vs : List PyVal, vs ≠ [] → (∀ v ∈ vs, v = PyVal.pyint 0) →
      CR1000XField._get_avg_xsd_type vs = XMLDataTypes.int) := by
  refine ⟨rfl, by decide, by decide, ?_⟩
  intro vs hne hvs
  match vs, hne with
  | v :: vs, _ =>
    have hv : v = PyVal.pyint 0 := hvs v (List.mem_cons_self v vs)
    show CR1000XField.avgFold
      (CR1000XField.pickHigher XMLDataTypes.null (CR1000XField._get_xsd_type v)) vs
      = XMLDataTypes.int
    rw [hv]
    exact CR1000XField.avgFold_const_int vs
      (fun w hw => by rw [hvs w (List.mem_cons_of_mem _ hw)]; rfl)

/-- C10 witness: the all-zeros clause applied at the concrete column `[0, 0]`. -/
theorem C10_zero_is_int_witness :
    CR1000XField._get_avg_xsd_type [.pyint 0, .pyint 0] = XMLDataTypes.int :=
  C10_zero_is_int.2.2.2 [.pyint 0, .pyint 0] (by decide) (by decide)

/-- Decimal representation of a natural number as a list of characters,
modelling the library call `str(n)` used by the serial-number derivation
of `devices.py` (digits in most-significant-first order). -/
def decimalDigits (n : Nat) : List Char :=
  if n = 0 then ['0'] else ((Nat.digits 10 n).map Nat.digitChar).reverse

/-- Embedding of the Python `"-".join` over character lists, as used in
`CR1000XDevice._get_serial_number_from_site`. -/
def joinDash : List (List Char) → List Char
  | [] => []
  | [p] => p
  | p :: q :: rest => p ++ '-' :: joinDash (q :: rest)

theorem digitChar_inj_lt (a b : Nat) (ha : a < 10) (hb : b < 10)
    (hab : Nat.digitChar a = Nat.digitChar b) : a = b := by
  have h : ∀ x y : Fin 10, Nat.digitChar x.val = Nat.digitChar y.val → x = y := by decide
  exact congrArg Fin.val (h ⟨a, ha⟩ ⟨b, hb⟩ hab)

theorem digitChar_ne_dash (a : Nat) (ha : a < 10) : Nat.digitChar a ≠ '-' := by
  have h : ∀ x : Fin 10, Nat.digitChar x.val ≠ '-' := by decide
  exact h ⟨a, ha⟩

theorem map_digitChar_inj : ∀ (l₁ l₂ : List Nat), (∀ d ∈ l₁, d < 10) → (∀ d ∈ l₂, d < 10) →
    l₁.map Nat.digitChar = l₂.map Nat.digitChar → l₁ = l₂
  | [], [], _, _, _ => rfl
  | [], _ :: _, _, _, h => by simp at h
  | _ :: _, [], _, _, h => by simp at h
  | a :: l₁, b :: l₂, h₁, h₂, h => by
    simp only [List.map_cons, List.cons.injEq] at h
    have hd := digitChar_inj_lt a b (h₁ a (List.mem_cons_self a l₁))
      (h₂ b (List.mem_cons_self b l₂)) h.1
    have ht := map_digitChar_inj l₁ l₂ (fun d hd2 => h₁ d (List.mem_cons_of_mem _ hd2))
      (fun d hd2 => h₂ d (List.mem_cons_of_mem _ hd2)) h.2
    rw [hd, ht]

theorem decimalDigits_ne_nil (n : Nat) : decimalDigits n ≠ [] := by
  unfold decimalDigits
  split
  · simp
  · rename_i hn
    intro h
    have hd : Nat.digits 10 n ≠ [] := Nat.digits_ne_nil_iff_ne_zero.mpr hn
    simp only [List.reverse_eq_nil_iff, List.map_eq_nil_iff] at h
    exact hd h

theorem dash_not_mem_decimalDigits (n : Nat) : '-' ∉ decimalDigits n := by
  unfold decimalDigits
  split
  · decide
  · intro h
    simp only [List.mem_reverse, List.mem_map] at h
    obtain ⟨d, hd, hc⟩ := h
    exact digitChar_ne_dash d (Nat.digits_lt_base (by norm_num) hd) hc

theorem decimalDigits_eq_zero_char (n : Nat) (h : decimalDigits n = ['0']) : n = 0 := by
  by_contra hn
  unfold decimalDigits at h
  rw [if_neg hn] at h
  have h2 : (Nat.digits 10 n).map Nat.digitChar = ['0'] := by
    have := congrArg List.reverse h
    simpa using this
  cases hdig : Nat.digits 10 n with
  | nil => exact Nat.digits_ne_nil_iff_ne_zero.mpr hn hdig
  | cons d rest =>
    rw [hdig] at h2
    simp only [List.map_cons, List.cons.injEq, List.map_eq_nil_iff] at h2
    have hlt : d < 10 := Nat.digits_lt_base (by norm_num) (by rw [hdig]; exact List.mem_cons_self d rest)
    have hd0 : d = 0 := digitChar_inj_lt d 0 hlt (by norm_num) (by rw [h2.1]; rfl)
    have hn0 : n = 0 := by
      have hod := Nat.ofDigits_digits 10 n
      rw [hdig, h2.2, hd0] at hod
      simpa [Nat.ofDigits] using hod.symm
    exact hn hn0

theorem decimalDigits_inj : ∀ m n : Nat, decimalDigits m = decimalDigits n → m = n := by
  have key : ∀ m n : Nat, m ≠ 0 → n ≠ 0 → decimalDigits m = decimalDigits n → m = n := by
    intro m n hm hn h
    unfold decimalDigits at h
    rw [if_neg hm, if_neg hn] at h
    have h2 : (Nat.digits 10 m).map Nat.digitChar = (Nat.digits 10 n).map Nat.digitChar := by
      have := congrArg List.reverse h
      simpa using this
    have h3 : Nat.digits 10 m = Nat.digits 10 n :=
      map_digitChar_inj _ _ (fun d hd => Nat.digits_lt_base (by norm_num) hd)
        (fun d hd => Nat.digits_lt_base (by norm_num) hd) h2
    calc m = Nat.ofDigits 10 (Nat.digits 10 m) := (Nat.ofDigits_digits 10 m).symm
    _ = Nat.ofDigits 10 (Nat.digits 10 n) := by rw [h3]
    _ = n := Nat.ofDigits_digits 10 n
  intro m n h
  by_cases hm : m = 0 <;> by_cases hn : n = 0
  · rw [hm, hn]
  · subst hm
    have h0 : decimalDigits n = ['0'] := by
      rw [← h]
      rfl
    exact ((decimalDigits_eq_zero_char n h0).symm ▸ rfl)
  · subst hn
    have h0 : decimalDigits m = ['0'] := by
      rw [h]
      rfl
    exact decimalDigits_eq_zero_char m h0
  · exact key m n hm hn h

theorem dashfree_prefix_eq : ∀ (p q r s : List Char), '-' ∉ p → '-' ∉ q →
    (r = [] ∨ ∃ t, r = '-' :: t) → (s = [] ∨ ∃ t, s = '-' :: t) →
    p ++ r = q ++ s → p = q ∧ r = s
  | [], [], r, s, _, _, _, _, h => ⟨rfl, h⟩
  | [], b :: q, r, s, _, hq, hr, _, h => by
    simp only [List.nil_append, List.cons_append] at h
    rcases hr with rfl | ⟨t, rfl⟩
    · exact absurd h (by simp)
    · have hb : '-' = b := (List.cons.injEq _ _ _ _ ▸ h).1
      exact absurd (by rw [hb]; exact List.mem_cons_self b q) hq
  | a :: p, [], r, s, hp, _, _, hs, h => by
    simp only [List.nil_append, List.cons_append] at h
    rcases hs with rfl | ⟨t, rfl⟩
    · exact absurd h.symm (by simp)
    · have hb : '-' = a := ((List.cons.injEq _ _ _ _ ▸ h.symm)).1
      exact absurd (by rw [hb]; exact List.mem_cons_self a p) hp
  | a :: p, b :: q, r, s, hp, hq, hr, hs, h => by
    simp only [List.cons_append, List.cons.injEq] at h
    have tail := dashfree_prefix_eq p q r s (fun hm => hp (List.mem_cons_of_mem _ hm))
      (fun hm => hq (List.mem_cons_of_mem _ hm)) hr hs h.2
    exact ⟨by rw [h.1, tail.1], tail.2⟩

theorem joinDash_inj : ∀ (ps qs : List (List Char)),
    (∀ p ∈ ps, p ≠ [] ∧ '-' ∉ p) → (∀ q ∈ qs, q ≠ [] ∧ '-' ∉ q) →
    joinDash ps = joinDash qs → ps = qs
  | [], [], _, _, _ => rfl
  | [], q :: qs, _, hq, h => by
    exfalso
    cases qs with
    | nil => exact (hq q (List.mem_cons_self q [])).1 h.symm
    | cons q2 qs2 =>
      have h2 : q ++ '-' :: joinDash (q2 :: qs2) = [] := by
        rw [show joinDash (q :: q2 :: qs2) = q ++ '-' :: joinDash (q2 :: qs2) from rfl] at h
        exact h.symm
      rcases List.append_eq_nil.mp h2 with ⟨_, h4⟩
      cases h4
  | p :: ps, [], hp, _, h => by
    exfalso
    cases ps with
    | nil => exact (hp p (List.mem_cons_self p [])).1 h
    | cons p2 ps2 =>
      have h2 : p ++ '-' :: joinDash (p2 :: ps2) = [] := by
        rw [show joinDash (p :: p2 :: ps2) = p ++ '-' :: joinDash (p2 :: ps2) from rfl] at h
        exact h
      rcases List.append_eq_nil.mp h2 with ⟨_, h4⟩
      cases h4
  | p :: ps, q :: qs, hp, hq, h => by
    have hp1 := hp p (List.mem_cons_self p ps)
    have hq1 := hq q (List.mem_cons_self q qs)
    cases ps with
    | nil =>
      cases qs with
      | nil => rw [show p = q from h]
      | cons q2 qs2 =>
        exfalso
        have h' : p ++ [] = q ++ '-' :: joinDash (q2 :: qs2) := by
          rw [List.append_nil]
          exact h
        have hsplit := dashfree_prefix_eq p q [] ('-' :: joinDash (q2 :: qs2))
          hp1.2 hq1.2 (Or.inl rfl) (Or.inr ⟨_, rfl⟩) h'
        cases hsplit.2
    | cons p2 ps2 =>
      cases qs with
      | nil =>
        exfalso
        have h' : p ++ '-' :: joinDash (p2 :: ps2) = q ++ [] := by
          rw [List.append_nil]
          exact h
        have hsplit := dashfree_prefix_eq p q ('-' :: joinDash (p2 :: ps2)) []
          hp1.2 hq1.2 (Or.inr ⟨_, rfl⟩) (Or.inl rfl) h'
        cases hsplit.2
      | cons q2 qs2 =>
        have h' : p ++ '-' :: joinDash (p2 :: ps2) = q ++ '-' :: joinDash (q2 :: qs2) := h
        have hsplit := dashfree_prefix_eq p q _ _ hp1.2 hq1.2
          (Or.inr ⟨_, rfl⟩) (Or.inr ⟨_, rfl⟩) h'
        have htail : joinDash (p2 :: ps2) = joinDash (q2 :: qs2) :=
          (List.cons.injEq _ _ _ _ ▸ hsplit.2).2
        have hrec := joinDash_inj (p2 :: ps2) (q2 :: qs2)
          (fun x hx => hp x (List.mem_cons_of_mem _ hx))
          (fun x hx => hq x (List.mem_cons_of_mem _ hx)) htail
        rw [hsplit.1, hrec]

namespace CR1000XDevice

/-- Embedding of `CR1000XDevice._get_serial_number_from_site` from
`devices.py`: converts the device ID into dash-separated decimal Unicode
code points, one per character. Strings are modelled as character lists. -/
def _get_serial_number_from_site (value : List Char) : List Char :=
  joinDash (value.map (fun x => decimalDigits (Char.toNat x)))

end CR1000XDevice

theorem char_toNat_inj (a b : Char) (h : a.toNat = b.toNat) : a = b := by
  have := congrArg Char.ofNat h
  simpa [Char.ofNat_toNat] using this

/-- C9. Serial-number derivation (dash-joined decimal code points of the
device ID's characters) is injective over ASCII device IDs: distinct IDs get
distinct serial numbers. The proof never needs the ASCII bound; pieces are
nonempty and dash-free, so the join is uniquely decodable. -/
theorem C9_serial_injective :
    ∀ a b : List Char, (∀ c ∈ a, c.toNat < 128) → (∀ c ∈ b, c.toNat < 128) → a ≠ b →
    CR1000XDevice._get_serial_number_from_site a ≠
      CR1000XDevice._get_serial_number_from_site b := by
  intro a b _ _ hne heq
  apply hne
  have hcond : ∀ (l : List Char), ∀ p ∈ l.map (fun x => decimalDigits (Char.toNat x)),
      p ≠ [] ∧ '-' ∉ p := by
    intro l p hp
    obtain ⟨c, _, rfl⟩ := List.mem_map.mp hp
    exact ⟨decimalDigits_ne_nil _, dash_not_mem_decimalDigits _⟩
  have hmaps := joinDash_inj _ _ (hcond a) (hcond b) heq
  exact List.map_injective_iff.mpr
    (fun x y hxy => char_toNat_inj x y (decimalDigits_inj _ _ hxy)) hmaps

/-- C9 witness: the injectivity theorem applied to the concrete ASCII device
IDs "A" and "B". -/
theorem C9_serial_injective_witness :
    CR1000XDevice._get_serial_number_from_site ['A'] ≠
      CR1000XDevice._get_serial_number_from_site ['B'] :=
  C9_serial_injective ['A'] ['B'] (by decide) (by decide) (by decide)

/-- Modelled from the spec: the `CosmosTable` enum that `db.py` and
`devices.py` import from `iotswarm.queries` (the queries.py revision shipped
in the source tree predates it): one member per COSMOS dataset. -/
inductive CosmosTable where
  | LEVEL_1_SOILMET_30MIN
  | LEVEL_1_NMDB_1HOUR
  | LEVEL_1_PRECIP_1MIN
  | LEVEL_1_PRECIP_RAINE_1MIN
  | COSMOS_STATUS_1HOUR
deriving DecidableEq, Repr

/-- State of `LoopingCsvDB` from `db.py`: the pandas DataFrame loaded from
the CSV at construction, modelled as its list of rows. -/
structure LoopingCsvDB where
  connection : List Row

/-- The pandas filter `self.connection.query("SITE_ID == @site_id")` in
`LoopingCsvDB.query_latest_from_site`: rows whose SITE_ID cell equals the
given site string. -/
def LoopingCsvDB.siteRows (db : LoopingCsvDB) (site_id : String) : List Row :=
  db.connection.filter (fun row => decide (row.lookup "SITE_ID" = some (PyVal.pystr site_id)))

/-- Embedding of `LoopingCsvDB.query_latest_from_site` from `db.py`: filters
the frame by SITE_ID (the NaN-to-None replacement of the source is the
identity here, the modelled value domain having no NaN), indexes at
`index % len(data)` and returns the row paired with the unchanged store (the
method reads `self.connection` and mutates nothing). The Python `%` on an
empty frame raises ZeroDivisionError, modelled as `none`. -/
def LoopingCsvDB.query_latest_from_site (db : LoopingCsvDB) (site_id : String) (index : Nat) :
    LoopingCsvDB × Option Row :=
  (db, if (db.siteRows site_id).length = 0 then none
       else (db.siteRows site_id).get? (index % (db.siteRows site_id).length))

/-- State of `LoopingSQLite3` from `db.py`: the sqlite3 connection, modelled
as the per-table row lists in insertion order. -/
structure LoopingSQLite3 where
  connection : CosmosTable → List Row

/-- Modelled from the spec: the WHERE clause of the prepared statement
`CosmosQuery.SQLITE_LOOPED_DATA` (SELECT * FROM table WHERE site_id=:site_id
LIMIT 1 OFFSET :offset); the queries.py revision shipped in the source tree
predates this constant. -/
def LoopingSQLite3.siteRows (db : LoopingSQLite3) (table : CosmosTable) (site_id : String) :
    List Row :=
  (db.connection table).filter
    (fun row => decide (row.lookup "site_id" = some (PyVal.pystr site_id)))

/-- Embedding of `LoopingSQLite3._query_latest_from_site` from `db.py`:
executes the looped-data query and fetches one row; `fetchone` yields nothing
when the offset is past the end of the matching rows, returned as `none`. -/
def LoopingSQLite3._query_latest_from_site (db : LoopingSQLite3) (table : CosmosTable)
    (site_id : String) (offset : Nat) : Option Row :=
  (db.siteRows table site_id).get? offset

/-- Embedding of `LoopingSQLite3.query_latest_from_site` from `db.py`:
queries at the given offset; if the result is None the offset is reset to
zero and the query reissued. Returns the row paired with the unchanged
store. -/
def LoopingSQLite3.query_latest_from_site (db : LoopingSQLite3) (site_id : String)
    (table : CosmosTable) (index : Nat) : LoopingSQLite3 × Option Row :=
  (db, db._query_latest_from_site table site_id
        (if db._query_latest_from_site table site_id index = none then 0 else index))

/-- Store with exactly two rows for the site MORLY in every table, used to
exhibit the SQLite fallback behaviour. -/
def demoSqliteDB : LoopingSQLite3 :=
  ⟨fun _ => [[("site_id", PyVal.pystr "MORLY"), ("a", PyVal.pyint 10)],
             [("site_id", PyVal.pystr "MORLY"), ("a", PyVal.pyint 20)]]⟩

/-- C1 counterexample. With N = 2 rows for (MORLY, table) and offset k = 3,
the claim demands the row at position 3 mod 2 = 1; `LoopingSQLite3` first
queries offset 3, gets nothing, resets the offset to zero and returns row 0
instead, so the two query results differ. -/
theorem C1_sqlite_mod_counterexample :
    (demoSqliteDB.siteRows CosmosTable.LEVEL_1_SOILMET_30MIN "MORLY").length = 2 ∧
    (LoopingSQLite3.query_latest_from_site demoSqliteDB "MORLY"
        CosmosTable.LEVEL_1_SOILMET_30MIN 3).2
      ≠ (LoopingSQLite3.query_latest_from_site demoSqliteDB "MORLY"
        CosmosTable.LEVEL_1_SOILMET_30MIN (3 % 2)).2 := by
  decide

/-- C1 (amended). For LoopingCsvDB the claim holds as stated: with N >= 1
rows for the site, querying at any offset k gives the same answer as querying
at k mod N, and the store comes back unchanged. For LoopingSQLite3 the
looping differs from the claim: an in-range offset k returns the row at
position k, and any out-of-range offset falls back to the row at position 0
(which equals the row at k mod N only when k < N or N divides k); the store
likewise comes back unchanged. -/
theorem C1_looping_offset_amended :
    (∀ (db : LoopingCsvDB) (site_id : String) (k : Nat),
      1 ≤ (db.siteRows site_id).length →
      LoopingCsvDB.query_latest_from_site db site_id k
        = LoopingCsvDB.query_latest_from_site db site_id
            (k % (db.siteRows site_id).length)) ∧
    (∀ (db : LoopingCsvDB) (site_id : String) (k : Nat),
      (LoopingCsvDB.query_latest_from_site db site_id k).1 = db) ∧
    (∀ (db : LoopingSQLite3) (site_id : String) (table : CosmosTable) (k : Nat),
      1 ≤ (db.siteRows table site_id).length →
      (LoopingSQLite3.query_latest_from_site db site_id table k).2
        = if k < (db.siteRows table site_id).length
          then (db.siteRows table site_id).get? k
          else (db.siteRows table site_id).get? 0) ∧
    (∀ (db : LoopingSQLite3) (site_id : String) (table : CosmosTable) (k : Nat),
      (LoopingSQLite3.query_latest_from_site db site_id table k).1 = db) := by
  refine ⟨?_, fun _ _ _ => rfl, ?_, fun _ _ _ _ => rfl⟩
  · intro db site_id k hN
    unfold LoopingCsvDB.query_latest_from_site
    have hne : ¬ ((db.siteRows site_id).length = 0) := by omega
    rw [if_neg hne, if_neg hne, Nat.mod_mod]
  · intro db site_id table k hN
    unfold LoopingSQLite3.query_latest_from_site LoopingSQLite3._query_latest_from_site
    by_cases hk : k < (db.siteRows table site_id).length
    · have hval : ¬ ((db.siteRows table site_id).get? k = none) := by
        intro hnone
        exact absurd (List.get?_eq_none.mp hnone) (by omega)
      rw [if_neg hval, if_pos hk]
    · have hval : (db.siteRows table site_id).get? k = none :=
        List.get?_eq_none.mpr (by omega)
      rw [if_pos hval, if_neg hk]

/-- Store with exactly two rows for the site MORLY, used for the C1 witness. -/
def demoCsvDB : LoopingCsvDB :=
  ⟨[[("SITE_ID", PyVal.pystr "MORLY"), ("a", PyVal.pyint 10)],
    [("SITE_ID", PyVal.pystr "MORLY"), ("a", PyVal.pyint 20)]]⟩

/-- C1 witness: the CSV clause of the amended theorem applied to a concrete
two-row store at offset 3. -/
theorem C1_looping_offset_amended_witness :
    LoopingCsvDB.query_latest_from_site demoCsvDB "MORLY" 3
      = LoopingCsvDB.query_latest_from_site demoCsvDB "MORLY"
          (3 % (demoCsvDB.siteRows "MORLY").length) :=
  C1_looping_offset_amended.1 demoCsvDB "MORLY" 3 (by decide)

/-- Embedding of `MockDB.query_latest_from_site` from `db.py`: the mock data
source always returns the empty list (not None). -/
def MockDB.query_latest_from_site : List PyVal := []

/-- Embedding of `MockMessageConnection.send_message` from `messaging/core.py`:
consumes the request, logs, and returns True unconditionally. -/
def MockMessageConnection.send_message (_payload : List PyVal) : Bool := true

namespace BaseDevice

/-- Embedding of `BaseDevice._skip_send` from `devices.py`: draws
`random.random()` (the `draw` argument, a number in the unit interval) and
skips when `draw * 100 < no_send_probability`. -/
def _skip_send (draw : ℚ) (no_send_probability : Nat) : Bool :=
  decide (draw * 100 < (no_send_probability : ℚ))

/-- The environment of one iteration of `BaseDevice.run`: the random draw
consumed by `_skip_send`, the result of `_get_payload` (None modelled as
`none`; any other Python value, the empty list included, as `some`), and the
acknowledgement `send_message` would return if invoked. -/
structure IterInput where
  draw : ℚ
  payload : Option (List PyVal)
  sendResult : Bool

/-- The observable effects of one iteration of `BaseDevice.run`: whether
`_send_payload` was invoked, whether it returned True (which is when the
cycle advances), whether the "No data found." warning was logged, and
whether a swarm snapshot was written. -/
structure IterEvents where
  sendAttempted : Bool
  acked : Bool
  loggedNoData : Bool
  snapshotted : Bool
deriving DecidableEq, Repr

/-- Embedding of one iteration of the `while True` body of `BaseDevice.run`
from `devices.py` (after the termination check): evaluate `_skip_send`; if it
fires, do nothing; otherwise if the payload is not None, format it, send it,
and on a True send status advance the cycle by one and snapshot when the
source is looping and a swarm is attached; otherwise log "No data found.".
Returns the new cycle value and the iteration's events. -/
def runIteration (no_send_probability : Nat) (loopingSource swarmAttached : Bool)
    (cycle : Nat) (inp : IterInput) : Nat × IterEvents :=
  if _skip_send inp.draw no_send_probability then
    (cycle, ⟨false, false, false, false⟩)
  else
    match inp.payload with
    | some _ =>
      if inp.sendResult then
        (cycle + 1, ⟨true, true, false, loopingSource && swarmAttached⟩)
      else (cycle, ⟨true, false, false, false⟩)
    | none => (cycle, ⟨false, false, true, false⟩)

/-- Embedding of the `BaseDevice.run` loop from `devices.py`, fuel-indexed:
at each step, stop with the current cycle and publish count when
`max_cycles > 0 and cycle >= max_cycles`; otherwise run one iteration on the
next input and continue. `none` means the fuel ran out before the loop
terminated. -/
def runLoop (maxCycles no_send_probability : Nat) (loopingSource swarmAttached : Bool)
    (inputs : Nat → IterInput) : Nat → Nat → Nat → Nat → Option (Nat × Nat)
  | 0, _, _, _ => none
  | fuel + 1, idx, cycle, pubs =>
    if 0 < maxCycles ∧ maxCycles ≤ cycle then some (cycle, pubs)
    else
      let r := runIteration no_send_probability loopingSource swarmAttached cycle (inputs idx)
      runLoop maxCycles no_send_probability loopingSource swarmAttached inputs
        fuel (idx + 1) r.1 (pubs + if r.2.acked then 1 else 0)

end BaseDevice

theorem runIteration_cycle_le (prob : Nat) (l s : Bool) (cycle : Nat)
    (inp : BaseDevice.IterInput) :
    cycle ≤ (BaseDevice.runIteration prob l s cycle inp).1 := by
  unfold BaseDevice.runIteration
  split
  · exact Nat.le_refl _
  · match inp.payload with
    | some _ =>
      simp only
      split
      · exact Nat.le_succ _
      · exact Nat.le_refl _
    | none => exact Nat.le_refl _

theorem runLoop_cycle_le (maxC prob : Nat) (l s : Bool)
    (inputs : Nat → BaseDevice.IterInput) :
    ∀ (fuel idx cycle pubs : Nat) (out : Nat × Nat),
      BaseDevice.runLoop maxC prob l s inputs fuel idx cycle pubs = some out →
      cycle ≤ out.1 := by
  intro fuel
  induction fuel with
  | zero => intro idx cycle pubs out h; cases h
  | succ fuel ih =>
    intro idx cycle pubs out h
    unfold BaseDevice.runLoop at h
    split at h
    · cases h
      exact Nat.le_refl _
    · exact Nat.le_trans (runIteration_cycle_le prob l s cycle (inputs idx))
        (ih (idx + 1) _ _ out h)

theorem skip_send_zero (draw : ℚ) (h : 0 ≤ draw) :
    BaseDevice._skip_send draw 0 = false := by
  unfold BaseDevice._skip_send
  rw [decide_eq_false_iff_not]
  intro hlt
  have h100 : (0 : ℚ) ≤ draw * 100 := mul_nonneg h (by norm_num)
  rw [Nat.cast_zero] at hlt
  exact absurd hlt (not_lt.mpr h100)

theorem runIteration_skip (prob : Nat) (l s : Bool) (cycle : Nat)
    (inp : BaseDevice.IterInput) (h : BaseDevice._skip_send inp.draw prob = true) :
    BaseDevice.runIteration prob l s cycle inp = (cycle, ⟨false, false, false, false⟩) := by
  simp [BaseDevice.runIteration, h]

theorem runIteration_publish (prob : Nat) (l s : Bool) (cycle : Nat)
    (inp : BaseDevice.IterInput) (rows : List PyVal)
    (h1 : BaseDevice._skip_send inp.draw prob = false)
    (h2 : inp.payload = some rows) (h3 : inp.sendResult = true) :
    BaseDevice.runIteration prob l s cycle inp
      = (cycle + 1, ⟨true, true, false, l && s⟩) := by
  simp [BaseDevice.runIteration, h1, h2, h3]

theorem runIteration_nodata (prob : Nat) (l s : Bool) (cycle : Nat)
    (inp : BaseDevice.IterInput)
    (h1 : BaseDevice._skip_send inp.draw prob = false)
    (h2 : inp.payload = none) :
    BaseDevice.runIteration prob l s cycle inp
      = (cycle, ⟨false, false, true, false⟩) := by
  simp [BaseDevice.runIteration, h1, h2]

theorem runIteration_nack (prob : Nat) (l s : Bool) (cycle : Nat)
    (inp : BaseDevice.IterInput) (rows : List PyVal)
    (h1 : BaseDevice._skip_send inp.draw prob = false)
    (h2 : inp.payload = some rows) (h3 : inp.sendResult = false) :
    BaseDevice.runIteration prob l s cycle inp
      = (cycle, ⟨true, false, false, false⟩) := by
  simp [BaseDevice.runIteration, h1, h2, h3]

theorem runIteration_mock (prob : Nat) (l s : Bool) (cycle : Nat) (draw : ℚ)
    (h : BaseDevice._skip_send draw prob = false) :
    BaseDevice.runIteration prob l s cycle
      ⟨draw, some MockDB.query_latest_from_site,
        MockMessageConnection.send_message MockDB.query_latest_from_site⟩
      = (cycle + 1, ⟨true, true, false, l && s⟩) :=
  runIteration_publish prob l s cycle
    ⟨draw, some MockDB.query_latest_from_site,
      MockMessageConnection.send_message MockDB.query_latest_from_site⟩
    MockDB.query_latest_from_site h rfl rfl

/-- C6. For every device iteration: the cycle never decreases; it advances
(by exactly one) precisely when the send was acknowledged; an unacknowledged
iteration leaves the cycle unchanged; an acknowledgement implies the send was
attempted and the publisher returned True; and a skip draw neither attempts a
send nor advances the cycle. Over an entire run of the loop, the cycle is
monotonically non-decreasing. -/
theorem C6_cycle_monotonic :
    (∀ (prob : Nat) (l s : Bool) (cycle : Nat) (inp : BaseDevice.IterInput),
      cycle ≤ (BaseDevice.runIteration prob l s cycle inp).1 ∧
      ((BaseDevice.runIteration prob l s cycle inp).1 = cycle + 1 ↔
        (BaseDevice.runIteration prob l s cycle inp).2.acked = true) ∧
      ((BaseDevice.runIteration prob l s cycle inp).2.acked = false →
        (BaseDevice.runIteration prob l s cycle inp).1 = cycle) ∧
      ((BaseDevice.runIteration prob l s cycle inp).2.acked = true →
        (BaseDevice.runIteration prob l s cycle inp).2.sendAttempted = true ∧
          inp.sendResult = true) ∧
      (BaseDevice._skip_send inp.draw prob = true →
        (BaseDevice.runIteration prob l s cycle inp).2.sendAttempted = false ∧
        (BaseDevice.runIteration prob l s cycle inp).1 = cycle)) ∧
    (∀ (maxC prob : Nat) (l s : Bool) (inputs : Nat → BaseDevice.IterInput)
        (fuel idx cycle pubs : Nat) (out : Nat × Nat),
      BaseDevice.runLoop maxC prob l s inputs fuel idx cycle pubs = some out →
      cycle ≤ out.1) := by
  refine ⟨?_, fun maxC prob l s inputs fuel idx cycle pubs out h =>
    runLoop_cycle_le maxC prob l s inputs fuel idx cycle pubs out h⟩
  intro prob l s cycle inp
  by_cases hskip : BaseDevice._skip_send inp.draw prob = true
  · rw [runIteration_skip prob l s cycle inp hskip]
    exact ⟨Nat.le_refl _, ⟨fun h => absurd h (by omega), fun h => Bool.noConfusion h⟩,
      fun _ => rfl, fun h => Bool.noConfusion h, fun _ => ⟨rfl, rfl⟩⟩
  · have hskip2 : BaseDevice._skip_send inp.draw prob = false := by
      revert hskip
      cases BaseDevice._skip_send inp.draw prob <;> simp
    cases hpay : inp.payload with
    | none =>
      rw [runIteration_nodata prob l s cycle inp hskip2 hpay]
      exact ⟨Nat.le_refl _, ⟨fun h => absurd h (by omega), fun h => Bool.noConfusion h⟩,
        fun _ => rfl, fun h => Bool.noConfusion h, fun hs => absurd hs hskip⟩
    | some p =>
      by_cases hsend : inp.sendResult = true
      · rw [runIteration_publish prob l s cycle inp p hskip2 hpay hsend]
        exact ⟨Nat.le_succ _, ⟨fun _ => rfl, fun _ => rfl⟩, fun h => Bool.noConfusion h,
          fun _ => ⟨rfl, hsend⟩, fun hs => absurd hs hskip⟩
      · have hsend2 : inp.sendResult = false := by
          revert hsend
          cases inp.sendResult <;> simp
        rw [runIteration_nack prob l s cycle inp p hskip2 hpay hsend2]
        exact ⟨Nat.le_refl _, ⟨fun h => absurd h (by omega), fun h => Bool.noConfusion h⟩,
          fun _ => rfl, fun h => Bool.noConfusion h, fun hs => absurd hs hskip⟩

/-- C6 witness: at cycle 7, a non-skipped iteration whose publisher
acknowledges advances the cycle to 8, through the acked direction of the
theorem. -/
theorem C6_cycle_monotonic_witness :
    (BaseDevice.runIteration 0 true true 7
      ⟨0, some [PyVal.pyint 3], true⟩).1 = 7 + 1 := by
  have hiter : BaseDevice.runIteration 0 true true 7 ⟨0, some [PyVal.pyint 3], true⟩
      = (8, ⟨true, true, false, true⟩) :=
    runIteration_publish 0 true true 7 _ [PyVal.pyint 3]
      (skip_send_zero 0 (le_refl (0 : ℚ))) rfl rfl
  exact ((C6_cycle_monotonic.1 0 true true 7 ⟨0, some [PyVal.pyint 3], true⟩).2.1).mpr
    (by rw [hiter])

theorem runLoop_good (l s : Bool) (inputs : Nat → BaseDevice.IterInput)
    (hin : ∀ n, 0 ≤ (inputs n).draw ∧ (inputs n).payload.isSome = true ∧
      (inputs n).sendResult = true)
    (M : Nat) (hM : 1 ≤ M) :
    ∀ (k fuel idx c p : Nat), c + k = M → k + 1 ≤ fuel →
      BaseDevice.runLoop M 0 l s inputs fuel idx c p = some (M, p + k) := by
  intro k
  induction k with
  | zero =>
    intro fuel idx c p hc hf
    match fuel, hf with
    | fuel + 1, _ =>
      unfold BaseDevice.runLoop
      rw [if_pos ⟨by omega, by omega⟩]
      have hcM : c = M := by omega
      subst hcM
      rfl
  | succ k ih =>
    intro fuel idx c p hc hf
    match fuel, hf with
    | fuel + 1, _ =>
      unfold BaseDevice.runLoop
      rw [if_neg (by omega)]
      obtain ⟨hd, hps, hsr⟩ := hin idx
      obtain ⟨row, hrow⟩ := Option.isSome_iff_exists.mp hps
      have hiter : BaseDevice.runIteration 0 l s c (inputs idx)
          = (c + 1, ⟨true, true, false, l && s⟩) :=
        runIteration_publish 0 l s c (inputs idx) row (skip_send_zero _ hd) hrow hsr
      simp only [hiter]
      have hrec := ih fuel (idx + 1) (c + 1) (p + 1) (by omega) (by omega)
      rw [show p + (k + 1) = p + 1 + k from by omega]
      exact hrec

/-- C7. A device with max_cycles = M > 0, no-send probability 0, and an
environment where every iteration yields a row and every send is
acknowledged, terminates (with fuel at least M + 1) with cycle exactly M and
exactly M successful publishes. -/
theorem C7_terminates_after_M :
    ∀ (l s : Bool) (inputs : Nat → BaseDevice.IterInput),
      (∀ n, 0 ≤ (inputs n).draw ∧ (inputs n).payload.isSome = true ∧
        (inputs n).sendResult = true) →
      ∀ (M fuel : Nat), 1 ≤ M → M + 1 ≤ fuel →
      BaseDevice.runLoop M 0 l s inputs fuel 0 0 0 = some (M, M) := by
  intro l s inputs hin M fuel hM hf
  have h := runLoop_good l s inputs hin M hM M fuel 0 0 0 (by omega) hf
  simpa using h

/-- Constant stream of benign iteration environments for the C7 witness:
draw 0, a one-cell row, an acknowledging publisher. -/
def goodInputs : Nat → BaseDevice.IterInput := fun _ => ⟨0, some [PyVal.pyint 1], true⟩

/-- C7 witness: the termination theorem applied at M = 3 with fuel 4: the
loop stops with cycle 3 after 3 publishes. -/
theorem C7_terminates_after_M_witness :
    BaseDevice.runLoop 3 0 true false goodInputs 4 0 0 0 = some (3, 3) :=
  C7_terminates_after_M true false goodInputs
    (fun _ => ⟨le_refl (0 : ℚ), rfl, rfl⟩) 3 4 (by omega) (by omega)

/-- C5 counterexample. One iteration of a device whose source is the Mock
variant (`query_latest_from_site` returning the empty list) with the Mock
publisher: the empty list is not None, so the send branch is taken, the
"No data found." warning is not logged, and the cycle advances from 0 to 1
on the acknowledged send, contradicting both halves of the claim. -/
theorem C5_mock_source_counterexample :
    (BaseDevice.runIteration 0 true false 0
      ⟨0, some MockDB.query_latest_from_site,
        MockMessageConnection.send_message MockDB.query_latest_from_site⟩).2.loggedNoData
      = false ∧
    (BaseDevice.runIteration 0 true false 0
      ⟨0, some MockDB.query_latest_from_site,
        MockMessageConnection.send_message MockDB.query_latest_from_site⟩).1 = 1 := by
  have hiter := runIteration_mock 0 true false 0 0 (skip_send_zero 0 (le_refl (0 : ℚ)))
  rw [hiter]
  exact ⟨rfl, rfl⟩

/-- C5 (amended). A device whose data source is the Mock variant never logs
"No data found." in any iteration (the empty list returned by the source is
not None, so the send branch is taken), and in every iteration whose skip
draw does not fire the Mock publisher acknowledges and the cycle advances by
exactly one. -/
theorem C5_mock_source_amended :
    ∀ (prob : Nat) (l s : Bool) (cycle : Nat) (draw : ℚ),
      (BaseDevice.runIteration prob l s cycle
        ⟨draw, some MockDB.query_latest_from_site,
          MockMessageConnection.send_message MockDB.query_latest_from_site⟩).2.loggedNoData
        = false ∧
      (BaseDevice._skip_send draw prob = false →
        (BaseDevice.runIteration prob l s cycle
          ⟨draw, some MockDB.query_latest_from_site,
            MockMessageConnection.send_message MockDB.query_latest_from_site⟩).1
          = cycle + 1) := by
  intro prob l s cycle draw
  constructor
  · by_cases hskip : BaseDevice._skip_send draw prob = true
    · rw [runIteration_skip prob l s cycle
        ⟨draw, some MockDB.query_latest_from_site,
          MockMessageConnection.send_message MockDB.query_latest_from_site⟩ hskip]
    · have hskip2 : BaseDevice._skip_send draw prob = false := by
        revert hskip
        cases BaseDevice._skip_send draw prob <;> simp
      rw [runIteration_mock prob l s cycle draw hskip2]
  · intro hskip2
    rw [runIteration_mock prob l s cycle draw hskip2]

/-- C5 witness: at cycle 5 with draw 0 and probability 0, the non-skip clause
of the amended theorem advances the cycle to 6. -/
theorem C5_mock_source_amended_witness :
    (BaseDevice.runIteration 0 true true 5
      ⟨0, some MockDB.query_latest_from_site,
        MockMessageConnection.send_message MockDB.query_latest_from_site⟩).1 = 5 + 1 :=
  (C5_mock_source_amended 0 true true 5 0).2 (skip_send_zero 0 (le_refl (0 : ℚ)))

/-- Observable outcome of one `send_message` call on the MQTT connection:
the returned Boolean, whether `_connect()` was invoked, and whether
`publish` was invoked. -/
structure SendOutcome where
  retval : Bool
  connectCalled : Bool
  publishCalled : Bool
deriving DecidableEq, Repr

namespace IotCoreMQTTConnection

/-- Embedding of `IotCoreMQTTConnection.send_message` from
`messaging/aws.py`. State and environment are explicit: `connected_flag` is
the instance flag maintained by the connection callbacks, `connectRaises`
abstracts whether `_connect()` (exponential backoff capped at 60 s) still
raises after exhausting its retries, and `publishHasPacketId` abstracts
whether the publish future's result carries a packet id. Following the
source: a falsy message returns False immediately; then, when
`connected_flag` is True, `_connect()` is called and an AwsCrtError or
RuntimeError makes the call return False; then the message is published and
the call returns True exactly when a packet id is present. -/
def send_message (connected_flag : Bool) (connectRaises : Bool)
    (publishHasPacketId : Bool) (message : Row) : SendOutcome :=
  if message = [] then ⟨false, false, false⟩
  else if connected_flag then
    if connectRaises then ⟨false, true, false⟩
    else if publishHasPacketId then ⟨true, true, true⟩
    else ⟨false, true, true⟩
  else if publishHasPacketId then ⟨true, false, true⟩
  else ⟨false, false, true⟩

end IotCoreMQTTConnection

/-- Non-empty message used to evaluate the send path. -/
def demoMessage : Row := [("a", PyVal.pyint 1)]

/-- C3. Evaluation of the send path at the failing input: a freshly
constructed client (connected_flag False) with a non-empty message publishes
without ever invoking `_connect()`, while a client whose flag already says
connected is the one that connects (and returns False when the connect
raises). The guard `if self.connected_flag: self._connect()` is inverted
with respect to the claim, which requires connecting when NOT connected. -/
theorem C3_send_message_connect_inverted :
    (IotCoreMQTTConnection.send_message false false true demoMessage).connectCalled = false ∧
    (IotCoreMQTTConnection.send_message false false true demoMessage).publishCalled = true ∧
    (IotCoreMQTTConnection.send_message true false true demoMessage).connectCalled = true ∧
    (IotCoreMQTTConnection.send_message true true true demoMessage).retval = false := by
  decide

/-- The `Site` TypedDict of `livecosmos/state.py`: a site id with the
timestamp of its last uploaded row; datetimes are modelled as integers since
only their ordering matters here. -/
structure Site where
  site_id : String
  last_data : Int
deriving DecidableEq, Repr

/-- The `State` TypedDict of `livecosmos/state.py`: the newest timestamp seen
overall and the per-site entries, the dict modelled as an insertion-ordered
association list. -/
structure State where
  last_run : Option Int
  sites : List (String × Site)
deriving DecidableEq, Repr

/-- Python dict assignment `self.state["sites"][site["site_id"]] = site`:
replace the entry in place when the key is present, append otherwise. -/
def setSite : List (String × Site) → Site → List (String × Site)
  | [], s => [(s.site_id, s)]
  | (k, v) :: rest, s =>
    if k = s.site_id then (k, s) :: rest else (k, v) :: setSite rest s

namespace StateTracker

/-- Embedding of `StateTracker.update_state` from `livecosmos/state.py`:
advances `last_run` when unset or older than the site's timestamp, and the
site entry when absent or older; the mutation is applied to the in-memory
state immediately, and the returned Boolean says whether anything changed. -/
def update_state (st : State) (site : Site) : State × Bool :=
  let changed1 : Bool :=
    match st.last_run with
    | none => true
    | some t => decide (t < site.last_data)
  let st1 := if changed1 then { st with last_run := some site.last_data } else st
  let changed2 : Bool :=
    match st1.sites.lookup site.site_id with
    | none => true
    | some s => decide (s.last_data < site.last_data)
  let st2 := if changed2 then { st1 with sites := setSite st1.sites site } else st1
  (st2, changed1 || changed2)

end StateTracker

/-- Observable outcome of one `LiveUploader.send_payload` call: the tracker
state after the call, whether `write_state` persisted it to file, and
whether the call raised. -/
structure SendPayloadResult where
  state : State
  wroteStateFile : Bool
  raised : Bool
deriving DecidableEq, Repr

namespace LiveUploader

/-- Embedding of `LiveUploader.send_payload` from
`livecosmos/liveupload.py`, the object-store write abstracted by `writeOk`
(whether `s3_writer.write` succeeds after its backoff). Following the
source: `update_state` is applied to the in-memory tracker first; then the
object is written; if the write raises, the exception is re-raised and
`write_state` is never called; if it succeeds, the state file is written
exactly when `update_state` reported a change. The `site` argument is the
Site the source builds from the payload's station_name and data[0].time. -/
def send_payload (st : State) (site : Site) (writeOk : Bool) : SendPayloadResult :=
  let r := StateTracker.update_state st site
  if writeOk then ⟨r.1, r.2, false⟩ else ⟨r.1, false, true⟩

end LiveUploader

/-- Tracker state holding the high-water-mark 5 for site ALIC1. -/
def demoState : State := ⟨some 5, [("ALIC1", ⟨"ALIC1", 5⟩)]⟩

/-- A newer row (timestamp 9) for site ALIC1. -/
def demoSite : Site := ⟨"ALIC1", 9⟩

/-- C8 counterexample. When the object-store write raises, the call
propagates the exception, yet the site's in-memory high-water-mark observable
after the call is 9, not its pre-call value 5: `update_state` ran before the
write and is not rolled back, contradicting the claim that the mark after a
failing call equals its value before. -/
theorem C8_hwm_counterexample :
    (LiveUploader.send_payload demoState demoSite false).raised = true ∧
    (LiveUploader.send_payload demoState demoSite false).state.sites.lookup "ALIC1"
      = some ⟨"ALIC1", 9⟩ ∧
    demoState.sites.lookup "ALIC1" = some ⟨"ALIC1", 5⟩ ∧
    (LiveUploader.send_payload demoState demoSite false).state.sites.lookup "ALIC1"
      ≠ demoState.sites.lookup "ALIC1" := by
  decide

/-- C8 (amended). In send_payload, the persisted high-water-mark advances
only on a successful object-store write: a failing write persists nothing
and re-raises. The in-memory tracked state, however, is advanced by
`update_state` before the write, identically whether the write succeeds or
fails, and a successful write persists exactly when the update reported a
change. -/
theorem C8_hwm_amended :
    ∀ (st : State) (site : Site),
      (LiveUploader.send_payload st site false).wroteStateFile = false ∧
      (LiveUploader.send_payload st site false).raised = true ∧
      (LiveUploader.send_payload st site false).state
        = (StateTracker.update_state st site).1 ∧
      (LiveUploader.send_payload st site true).wroteStateFile
        = (StateTracker.update_state st site).2 ∧
      (LiveUploader.send_payload st site true).state
        = (StateTracker.update_state st site).1 := by
  intro st site
  exact ⟨rfl, rfl, rfl, rfl, rfl⟩

/-- The field part of a CR1000X payload (class `CR1000XField` of
`devices.py`): one descriptor per sensor column. -/
structure CR1000XField where
  name : String
  data_type : String
  units : String
  process : String
  settable : Bool
deriving DecidableEq, Repr

/-- The `CR1000XEnvironment` TypedDict of `devices.py`. -/
structure CR1000XEnvironment where
  station_name : String
  table_name : String
  model : String
  serial_no : String
  os_version : String
  prog_name : String
deriving DecidableEq, Repr

/-- The `CR1000XPayloadHead` TypedDict of `devices.py`. -/
structure CR1000XPayloadHead where
  transaction : Nat
  signature : Nat
  environment : CR1000XEnvironment
  fields : List CR1000XField
deriving DecidableEq, Repr

/-- The `CR1000XPayloadData` TypedDict of `devices.py`: one output row. -/
structure CR1000XPayloadData where
  time : PyVal
  vals : List PyVal
deriving DecidableEq, Repr

/-- The `CR1000XPayload` TypedDict of `devices.py`: the full envelope. -/
structure CR1000XPayload where
  head : CR1000XPayloadHead
  data : List CR1000XPayloadData
deriving DecidableEq, Repr

/-- The per-instance attributes of `CR1000XDevice` consumed by
`_format_payload`: identity and environment strings. -/
structure CR1000XDevice where
  device_id : String
  table_name : String
  serial_number : String
  os_version : String
  program_name : String
deriving DecidableEq, Repr

/-- One step of the `collected` dict construction in
`CR1000XDevice._format_payload`: append the value to the key's list when the
key is present, insert a fresh one-element list otherwise (Python dict
insertion order preserved). -/
def addValue : List (String × List PyVal) → String → PyVal → List (String × List PyVal)
  | [], k, v => [(k, [v])]
  | (k2, vs) :: rest, k, v =>
    if k2 = k then (k2, vs ++ [v]) :: rest else (k2, vs) :: addValue rest k v

/-- The inner loop of the `collected` construction: fold one row's key-value
pairs into the accumulator. -/
def collectRow (collected : List (String × List PyVal)) (row : Row) :
    List (String × List PyVal) :=
  row.foldl (fun coll kv => addValue coll kv.1 kv.2) collected

/-- The `collected` dict of `CR1000XDevice._format_payload`: per column (in
first-seen order) the list of that column's values across the batch rows. -/
def collectColumns (payload : List Row) : List (String × List PyVal) :=
  payload.foldl collectRow []

/-- The search for a DATE_TIME column in `CR1000XDevice._format_payload`:
the first collected key whose lowercasing is "date_time". -/
def findDateTime (collected : List (String × List PyVal)) :
    Option (String × List PyVal) :=
  collected.find? (fun kv => pyLower kv.1 == "date_time")

/-- The `collected.pop(k)` of `CR1000XDevice._format_payload`: drop the first
entry whose lowercased key is "date_time". -/
def removeDateTime (collected : List (String × List PyVal)) :
    List (String × List PyVal) :=
  collected.eraseP (fun kv => pyLower kv.1 == "date_time")

/-- The `time` list of `CR1000XDevice._format_payload`: the popped DATE_TIME
column when one exists, else the current wall clock in ISO-8601 (the `now`
argument, one copy per row). -/
def timeColumn (now : String) (payload : List Row) : List PyVal :=
  match findDateTime (collectColumns payload) with
  | some kv => kv.2
  | none => List.replicate payload.length (.pystr now)

/-- The columns remaining for `vals` and `fields` after the DATE_TIME pop in
`CR1000XDevice._format_payload`. -/
def columnsAfterPop (payload : List Row) : List (String × List PyVal) :=
  match findDateTime (collectColumns payload) with
  | some _ => removeDateTime (collectColumns payload)
  | none => collectColumns payload

/-- The expression `[x[i] for x in vals]` of `CR1000XDevice._format_payload`:
the i-th entry of every column, `none` when some column is too short (the
Python IndexError). -/
def colsAt : List (List PyVal) → Nat → Option (List PyVal)
  | [], _ => some []
  | c :: cs, i => do
    let v ← c.get? i
    let vs ← colsAt cs i
    pure (v :: vs)

/-- The `for i in range(len(payload))` loop of
`CR1000XDevice._format_payload` building `f_payload["data"]`: row i gets
`time[i]` and the i-th entry of every column; an out-of-range access (the
Python IndexError) yields `none`. -/
def buildData (time : List PyVal) (cols : List (List PyVal)) :
    Nat → Nat → Option (List CR1000XPayloadData)
  | _, 0 => some []
  | i, n + 1 => do
    let t ← time.get? i
    let vs ← colsAt cols i
    let rest ← buildData time cols (i + 1) n
    pure ({ time := t, vals := vs } :: rest)

/-- Construction of one `CR1000XField` by `CR1000XDevice._format_payload`
(`CR1000XField(k, data_values=v)`): the data type is inferred from the
column's values, units default to empty, the process is derived from the
name, settable defaults to False. -/
def CR1000XField.ofColumn (kv : String × List PyVal) : CR1000XField :=
  { name := kv.1
    data_type := (CR1000XField._get_avg_xsd_type kv.2).schema
    units := ""
    process := CR1000XField._get_process kv.1
    settable := false }

/-- The envelope assembled by `CR1000XDevice._format_payload`: the constant
head (transaction 0, signature 111111), the device environment, one field
per remaining column, and the data rows. -/
def CR1000XDevice.mkEnvelope (dev : CR1000XDevice)
    (collected2 : List (String × List PyVal)) (data : List CR1000XPayloadData) :
    CR1000XPayload :=
  { head :=
      { transaction := 0
        signature := 111111
        environment :=
          { station_name := dev.device_id
            table_name := dev.table_name
            model := "CR1000X"
            serial_no := dev.serial_number
            os_version := dev.os_version
            prog_name := dev.program_name }
        fields := collected2.map CR1000XField.ofColumn }
    data := data }

/-- Embedding of `CR1000XDevice._format_payload` from `devices.py` on a
sterilized batch (a list of dict rows; `_steralize_payload` normalises every
accepted raw input, dict, batch, scalar or positional, into this shape).
Following the source: unequal row lengths raise ValueError (`none` here);
the columns are collected in first-seen order; a case-insensitive DATE_TIME
column is popped into the per-row times, otherwise every row is stamped with
the current wall clock (`now`); the data rows and field descriptors are then
built from the remaining columns, `none` on an IndexError. -/
def CR1000XDevice._format_payload (dev : CR1000XDevice) (now : String)
    (payload : List Row) : Option CR1000XPayload :=
  if 1 < ((payload.map (fun p => p.length)).dedup.length) then none
  else
    (buildData (timeColumn now payload)
        ((columnsAfterPop payload).map (fun kv => kv.2)) 0 payload.length).map
      (fun data => CR1000XDevice.mkEnvelope dev (columnsAfterPop payload) data)

theorem colsAt_length : ∀ (cols : List (List PyVal)) (i : Nat) (vs : List PyVal),
    colsAt cols i = some vs → vs.length = cols.length
  | [], _, vs, h => by
    simp only [colsAt, Option.some.injEq] at h
    rw [← h]
    rfl
  | c :: cs, i, vs, h => by
    simp only [colsAt, Option.pure_def, Option.bind_eq_bind, Option.bind_eq_some,
      Option.some.injEq] at h
    obtain ⟨v, hv, vs2, hvs2, hcons⟩ := h
    rw [← hcons]
    simp [colsAt_length cs i vs2 hvs2]

theorem buildData_get : ∀ (time : List PyVal) (cols : List (List PyVal)) (n i : Nat)
    (out : List CR1000XPayloadData), buildData time cols i n = some out →
    ∀ (j : Nat) (d : CR1000XPayloadData), out.get? j = some d →
      time.get? (i + j) = some d.time ∧ colsAt cols (i + j) = some d.vals
  | time, cols, 0, i, out, h, j, d, hj => by
    simp only [buildData, Option.some.injEq] at h
    rw [← h] at hj
    simp at hj
  | time, cols, n + 1, i, out, h, j, d, hj => by
    simp only [buildData, Option.pure_def, Option.bind_eq_bind, Option.bind_eq_some,
      Option.some.injEq] at h
    obtain ⟨t, ht, vs, hvs, rest, hrest, hcons⟩ := h
    rw [← hcons] at hj
    cases j with
    | zero =>
      simp only [List.get?] at hj
      obtain rfl := Option.some.inj hj
      constructor
      · rw [Nat.add_zero]
        exact ht
      · rw [Nat.add_zero]
        exact hvs
    | succ j2 =>
      have hrec := buildData_get time cols n (i + 1) rest hrest j2 d (by simpa using hj)
      rw [show i + (j2 + 1) = (i + 1) + j2 from by omega]
      exact hrec

theorem get?_replicate_some (n i : Nat) (a x : PyVal)
    (h : (List.replicate n a).get? i = some x) : x = a := by
  rw [List.get?_eq_getElem?, List.getElem?_replicate] at h
  split at h
  · exact (Option.some.inj h).symm
  · exact Option.noConfusion h

theorem addValue_fst (coll : List (String × List PyVal)) (k : String) (v : PyVal) :
    (addValue coll k v).map Prod.fst
      = if k ∈ coll.map Prod.fst then coll.map Prod.fst
        else coll.map Prod.fst ++ [k] := by
  induction coll with
  | nil => simp [addValue]
  | cons hd rest ih =>
    by_cases hk : hd.1 = k
    · rw [show hd = (hd.1, hd.2) from rfl]
      simp [addValue, hk]
  
    · rw [show hd = (hd.1, hd.2) from rfl]
      simp only [addValue, if_neg hk, List.map_cons, ih]
      by_cases hmem : k ∈ rest.map Prod.fst
      · rw [if_pos hmem, if_pos (List.mem_cons_of_mem _ hmem)]
      · have hnot : k ∉ hd.1 :: rest.map Prod.fst := by
          intro hin
          rcases List.mem_cons.mp hin with h2 | h2
          · exact hk h2.symm
          · exact hmem h2
        rw [if_neg hmem, if_neg hnot, List.cons_append]

theorem addValue_fst_nodup (coll : List (String × List PyVal)) (k : String) (v : PyVal)
    (h : (coll.map Prod.fst).Nodup) : ((addValue coll k v).map Prod.fst).Nodup := by
  rw [addValue_fst]
  split
  · exact h
  · rename_i hmem
    simp [List.nodup_append, h, hmem]

theorem collectRow_fst_nodup : ∀ (row : Row) (coll : List (String × List PyVal)),
    (coll.map Prod.fst).Nodup → ((collectRow coll row).map Prod.fst).Nodup
  | [], _, h => h
  | kv :: rest, coll, h =>
    collectRow_fst_nodup rest (addValue coll kv.1 kv.2) (addValue_fst_nodup coll kv.1 kv.2 h)

theorem collectColumns_fst_nodup (payload : List Row) :
    ((collectColumns payload).map Prod.fst).Nodup := by
  have key : ∀ (rows : List Row) (coll : List (String × List PyVal)),
      (coll.map Prod.fst).Nodup →
      ((rows.foldl collectRow coll).map Prod.fst).Nodup := by
    intro rows
    induction rows with
    | nil => exact fun coll h => h
    | cons row rest ih =>
      intro coll h
      exact ih (collectRow coll row) (collectRow_fst_nodup row coll h)
  exact key payload [] (by simp)

theorem mem_removeDateTime_ne :
    ∀ (collected : List (String × List PyVal)),
      ((collected.map Prod.fst).Nodup) →
      ∀ (kv : String × List PyVal), findDateTime collected = some kv →
      ∀ (kv2 : String × List PyVal), kv2 ∈ removeDateTime collected → kv2.1 ≠ kv.1
  | [], _, kv, hfind, _, _ => Option.noConfusion hfind
  | hd :: tl, hnodup, kv, hfind, kv2, hmem => by
    have hfind2 : List.find? (fun kv => pyLower kv.1 == "date_time") (hd :: tl)
        = some kv := hfind
    have hmem2 : kv2 ∈ List.eraseP (fun kv => pyLower kv.1 == "date_time") (hd :: tl) :=
      hmem
    by_cases hp : ((fun kv : String × List PyVal => pyLower kv.1 == "date_time") hd) = true
    · rw [List.find?_cons_of_pos tl hp] at hfind2
      obtain rfl : kv = hd := (Option.some.inj hfind2).symm
      simp only [List.eraseP_cons, hp, cond_true] at hmem2
      have hnotin : kv.1 ∉ tl.map Prod.fst := by
        simp only [List.map_cons, List.nodup_cons] at hnodup
        exact hnodup.1
      intro heq
      apply hnotin
      rw [← heq]
      exact List.mem_map_of_mem Prod.fst hmem2
    · rw [List.find?_cons_of_neg tl hp] at hfind2
      have hpf : ((fun kv : String × List PyVal => pyLower kv.1 == "date_time") hd) = false := by
        revert hp
        cases ((fun kv : String × List PyVal => pyLower kv.1 == "date_time") hd) <;> simp
      simp only [List.eraseP_cons, hpf, cond_false] at hmem2
      have hkvp := List.find?_some hfind2
      rcases List.mem_cons.mp hmem2 with heq2 | hmem3
      · intro heq
        apply hp
        show (pyLower hd.1 == "date_time") = true
        have hfst : hd.1 = kv.1 := by
          rw [← heq2]
          exact heq
        rw [hfst]
        exact hkvp
      · have hnodup2 : (tl.map Prod.fst).Nodup := by
          simp only [List.map_cons, List.nodup_cons] at hnodup
          exact hnodup.2
        exact mem_removeDateTime_ne tl hnodup2 kv hfind2 kv2 hmem3

/-- C2. For every input the CR1000X adapter accepts (the call returns an
envelope instead of raising): every data row's vals list has exactly as many
entries as head.fields; when a case-insensitively named DATE_TIME column
exists among the collected columns, its per-row values populate data[i].time
and no field carries the popped column's name; otherwise every data row's
time is the current wall-clock ISO-8601 string (the `now` argument). -/
theorem C2_format_payload_shape :
    ∀ (dev : CR1000XDevice) (now : String) (payload : List Row) (env : CR1000XPayload),
      CR1000XDevice._format_payload dev now payload = some env →
      (∀ d ∈ env.data, d.vals.length = env.head.fields.length) ∧
      (∀ (i : Nat) (d : CR1000XPayloadData), env.data.get? i = some d →
        (match findDateTime (collectColumns payload) with
         | some kv => kv.2.get? i = some d.time
         | none => d.time = PyVal.pystr now)) ∧
      (∀ kv, findDateTime (collectColumns payload) = some kv →
        ∀ f ∈ env.head.fields, f.name ≠ kv.1) := by
  intro dev now payload env h
  unfold CR1000XDevice._format_payload at h
  by_cases hdup : 1 < ((payload.map (fun p => p.length)).dedup.length)
  · rw [if_pos hdup] at h
    exact Option.noConfusion h
  · rw [if_neg hdup, Option.map_eq_some'] at h
    obtain ⟨data, hbuild, henv⟩ := h
    subst henv
    refine ⟨?_, ?_, ?_⟩
    · intro d hd
      have hd2 : d ∈ data := hd
      obtain ⟨j, hj⟩ := List.mem_iff_get?.mp hd2
      have hb := buildData_get _ _ _ _ _ hbuild j d hj
      have hlen := colsAt_length _ _ _ hb.2
      show d.vals.length = ((columnsAfterPop payload).map CR1000XField.ofColumn).length
      rw [hlen, List.length_map, List.length_map]
    · intro i d hd
      have hd2 : data.get? i = some d := hd
      have hb := buildData_get _ _ _ _ _ hbuild i d hd2
      have h1 := hb.1
      rw [Nat.zero_add] at h1
      cases hfind : findDateTime (collectColumns payload) with
      | some kv =>
        show kv.2.get? i = some d.time
        have ht : timeColumn now payload = kv.2 := by
          unfold timeColumn
          rw [hfind]
        rw [← ht]
        exact h1
      | none =>
        show d.time = PyVal.pystr now
        have ht : timeColumn now payload
            = List.replicate payload.length (PyVal.pystr now) := by
          unfold timeColumn
          rw [hfind]
        rw [ht] at h1
        exact get?_replicate_some _ _ _ _ h1
    · intro kv hkv f hf
      have hcols : columnsAfterPop payload = removeDateTime (collectColumns payload) := by
        unfold columnsAfterPop
        rw [hkv]
      have hf2 : f ∈ (columnsAfterPop payload).map CR1000XField.ofColumn := hf
      rw [hcols] at hf2
      obtain ⟨kv3, hkv3, rfl⟩ := List.mem_map.mp hf2
      exact mem_removeDateTime_ne (collectColumns payload)
        (collectColumns_fst_nodup payload) kv hkv kv3 hkv3

/-- Device parameters used to evaluate the adapter at a concrete input. -/
def demoDevice : CR1000XDevice :=
  { device_id := "ALIC1"
    table_name := "default"
    serial_number := "65-76-73-67-49"
    os_version := "CR1000X.Std.07.02"
    program_name := "CPU:iotswarm.CR1X" }

/-- One-row batch with a DATE_TIME column and one sensor column. -/
def demoPayload : List Row :=
  [[("DATE_TIME", PyVal.pydatetime "2024-06-10T10:20:41"), ("temp", PyVal.pyint 17)]]

/-- The envelope the adapter produces for `demoPayload`. -/
def demoEnvelope : CR1000XPayload :=
  { head :=
      { transaction := 0
        signature := 111111
        environment :=
          { station_name := "ALIC1"
            table_name := "default"
            model := "CR1000X"
            serial_no := "65-76-73-67-49"
            os_version := "CR1000X.Std.07.02"
            prog_name := "CPU:iotswarm.CR1X" }
        fields := [{ name := "temp", data_type := "xsd:short", units := ""
                     process := "Smp", settable := false }] }
    data := [{ time := PyVal.pydatetime "2024-06-10T10:20:41"
               vals := [PyVal.pyint 17] }] }

/-- The single data row of `demoEnvelope`. -/
def demoDataRow : CR1000XPayloadData :=
  { time := PyVal.pydatetime "2024-06-10T10:20:41", vals := [PyVal.pyint 17] }

/-- C2 witness: the shape theorem applied at the concrete one-row batch; its
data row has as many vals as the envelope has fields. -/
theorem C2_format_payload_shape_witness :
    demoDataRow.vals.length = demoEnvelope.head.fields.length :=
  (C2_format_payload_shape demoDevice "2024-06-10T11:00:00" demoPayload demoEnvelope
    (by decide)).1 demoDataRow (by decide)
